import Mathlib

/-!
Shallow embedding of the call/compose pipeline of the Innovations4U repository
(src/MarketResearchAnalysis.py, src/ExecutionPlanGenerator.py,
src/StrategicAnalyzer.py, src/Chatbot.py, src/app.py).

The remote Groq backend is modelled by a function from the attempt index
(0-based, counting the calls a single stage invocation makes) to the outcome of
that attempt: either a returned completion or a raised exception.
`datetime.now().isoformat()` is passed in as an opaque string parameter `now`.
Each Python `dict` literal that a stage can return is modelled by one
constructor of an inductive type whose `keys` function lists exactly the string
keys of that literal.
-/

/-- Python string slicing `s[:n]`: the first `n` characters of `s`
(all of `s` when `s` is shorter than `n`). -/
def pyTake (n : Nat) (s : String) : String := ⟨s.data.take n⟩

/-- The slice of the Python exception hierarchy the handlers in the source
distinguish: `groq.RateLimitError` versus every other exception.  Network /
timeout failures (`connectionTimeout`) are kept separate from the rest
(`otherError`) so that statements about their treatment can be made. -/
inductive PyError where
  | rateLimitError (msg : String)
  | connectionTimeout (msg : String)
  | otherError (msg : String)
deriving DecidableEq

/-- Matching of an exception against the `except RateLimitError` clause. -/
def PyError.isRateLimit : PyError → Bool
  | .rateLimitError _ => true
  | .connectionTimeout _ => false
  | .otherError _ => false

/-- Python `str(e)` / f-string interpolation of the exception. -/
def PyError.msg : PyError → String
  | .rateLimitError m => m
  | .connectionTimeout m => m
  | .otherError m => m

/-- Outcome of one `client.chat.completions.create(...)` call: a returned
completion carrying the generated text and `usage.total_tokens` when the
backend reports usage, or a raised exception. -/
inductive BackendOutcome where
  | ok (text : String) (totalTokens : Option Nat)
  | raise (e : PyError)
deriving DecidableEq

/-- A backend behaviour: the outcome of the i-th attempted call (0-based)
made by one stage invocation. -/
abbrev GroqBackend := Nat → BackendOutcome

def BackendOutcome.isOk : BackendOutcome → Bool
  | .ok _ _ => true
  | .raise _ => false

def BackendOutcome.isRateLimited : BackendOutcome → Bool
  | .ok _ _ => false
  | .raise e => e.isRateLimit

/-- Observable events of one stage invocation, in order: a backend call
(carrying the exact user-prompt string sent) or an `asyncio.sleep`. -/
inductive StageEvent where
  | call (prompt : String)
  | sleep (seconds : Nat)
deriving DecidableEq

def isCallEvent : StageEvent → Bool
  | .call _ => true
  | .sleep _ => false

def isSleepEvent : StageEvent → Bool
  | .call _ => false
  | .sleep _ => true

def countCalls (tr : List StageEvent) : Nat := tr.countP isCallEvent

def countSleeps (tr : List StageEvent) : Nat := tr.countP isSleepEvent

/-- Raw outcome of the shared retry loop, before each stage packages it
into its own result dict. -/
inductive RawResult where
  | completed (text : String) (totalTokens : Option Nat)
  | rateLimitExhausted (e : PyError)
  | fatalException (e : PyError)
  | loopFellThrough
deriving DecidableEq

/-- The retry loop shared verbatim (up to message strings) by
`analyze_market_opportunity` (MarketResearchAnalysis.py 76-128),
`research_execution_strategies` (ExecutionPlanGenerator.py 90-118) and
`analyze_strategy` (StrategicAnalyzer.py 389-444):

`for attempt in range(max_retries): try: ... return success
 except RateLimitError: if attempt < max_retries - 1: sleep(retry_delay)
 else: return rate-limit failure
 except Exception: return failure`.

`fuel` is the number of loop iterations still available (the loop is entered
with `fuel = max_retries`, `attempt = 0`); `fuel = 0` is the (unreachable)
fall-through past the `for`.  The current iteration is the last one exactly
when `fuel = succ 0`, matching Python's `attempt < max_retries - 1` test. -/
def call_with_retry (backend : GroqBackend) (prompt : String) (retryDelay : Nat) :
    Nat → Nat → List StageEvent × RawResult
  | 0, _ => ([], .loopFellThrough)
  | fuel + 1, attempt =>
    match backend attempt with
    | .ok text tokens => ([.call prompt], .completed text tokens)
    | .raise e =>
      if e.isRateLimit then
        if 0 < fuel then
          let rest := call_with_retry backend prompt retryDelay fuel (attempt + 1)
          (.call prompt :: .sleep retryDelay :: rest.1, rest.2)
        else
          ([.call prompt], .rateLimitExhausted e)
      else
        ([.call prompt], .fatalException e)

/-- The backend delivers a successful completion within a budget of
`maxAttempts` calls: some attempt `i` returns a completion and all earlier
attempts raise `RateLimitError` (so that the loop actually reaches attempt `i`). -/
def succeeds_within (backend : GroqBackend) (maxAttempts : Nat) : Prop :=
  ∃ i, i < maxAttempts ∧ (backend i).isOk = true ∧
    ∀ j, j < i → (backend j).isRateLimited = true

/-- Shifted variant of `succeeds_within` used in the loop induction. -/
def succeeds_from (backend : GroqBackend) (start fuel : Nat) : Prop :=
  ∃ i, i < fuel ∧ (backend (start + i)).isOk = true ∧
    ∀ j, j < i → (backend (start + j)).isRateLimited = true

/-- Event trace of a stage whose first `k` attempts are rate-limited and whose
attempt `k` succeeds: `k` repetitions of (call, sleep) followed by one final
successful call. -/
def retryTrace (p : String) (d : Nat) : Nat → List StageEvent
  | 0 => [.call p]
  | k + 1 => .call p :: .sleep d :: retryTrace p d k

/-- Prompt of `InnovationMarketResearcher.get_universal_market_research_prompt`
(MarketResearchAnalysis.py 30-65): an f-string interpolating `user_idea`. -/
def get_universal_market_research_prompt (user_idea : String) : String :=
  "You are an expert market research analyst. Your task is to conduct a comprehensive analysis for a new business idea using REAL-TIME web search.\n\n**USER IDEA**: " ++
  user_idea ++
  "\n\n**CRITICAL INSTRUCTIONS**:\nYou MUST use your web search capabilities to find current, real-time data. Prioritize information from the last 12-18 months.\n\n**REQUIRED WEB SEARCHES**:\n- Search for \"" ++
  user_idea ++ " market size and growth 2024 2025\"\n- Search for \"top competitors for " ++
  user_idea ++ "\"\n- Search for \"latest trends in the " ++
  user_idea ++ " industry\"\n- Search for \"venture capital funding in " ++
  user_idea ++ " startups\"\n- Search for \"customer needs and pain points for " ++
  user_idea ++
  "\"\n\n**REQUIRED ANALYSIS STRUCTURE**:\nBased on your web search, provide a detailed report covering these core areas:\n\n1.  **Market Overview & Opportunity**: Analyze the market size (TAM, SAM, SOM), growth rate, key trends, and primary drivers.\n2.  **Target Audience**: Define the primary and secondary customer segments, their pain points, and buying behaviors.\n3.  **Competitive Landscape**: Identify direct and indirect competitors, their recent activities, strengths, and weaknesses. Use real company names.\n4.  **Business Model & Revenue**: Suggest viable revenue streams, pricing strategies, and monetization models based on successful examples.\n5.  **Market Validation**: Assess current market demand, timing, and the regulatory environment.\n6.  **Risks & Challenges**: Outline potential market, competitive, and execution risks.\n7.  **Success Factors & Recommendations**: Conclude with critical success factors, strategic recommendations, and potential innovation opportunities.\n\n**OUTPUT REQUIREMENTS**:\n- Be data-driven. Include specific statistics, company names, and funding amounts from your search results.\n- Cite sources with URLs where possible.\n- Provide a confident, expert-level analysis.\n\nBegin your comprehensive market research now:"

/-- Prompt of `ExecutionPlanGenerator.get_web_research_prompt`
(ExecutionPlanGenerator.py 25-46).  The market report contribution is the
slice `market_report[:1500]`. -/
def get_web_research_prompt (user_idea market_report : String) : String :=
  "You are a business strategy researcher. Use your web search capabilities to find current, real-world implementation strategies for a business idea.\n\n**USER IDEA**: " ++
  user_idea ++
  "\n\n**MARKET CONTEXT (Summary)**: " ++
  pyTake 1500 market_report ++
  "...\n\n**CRITICAL WEB SEARCH TASKS**:\n- Search for case studies of similar successful startups.\n- Search for typical resource requirements (funding, team size).\n- Search for common technology stacks and development timelines.\n- Search for key regulatory hurdles and compliance needs.\n- Search for common challenges and pitfalls to avoid.\n\n**OUTPUT REQUIREMENTS**:\nProvide a concise research summary with actionable data. Include company names, realistic timelines, funding estimates, and key challenges. Organize findings into clear sections for execution planning.\n\nBegin web research now:"

/-- Prompt of `ExecutionPlanGenerator.get_execution_planning_prompt`
(ExecutionPlanGenerator.py 48-82).  Prior-stage contributions are the slices
`market_report[:1500]` and `web_research_data[:2000]`. -/
def get_execution_planning_prompt (user_idea market_report web_research_data : String) : String :=
  "You are a world-class business strategist. Create a comprehensive, step-by-step execution plan using chain-of-thought reasoning.\n\n**USER IDEA**: " ++
  user_idea ++
  "\n\n**MARKET CONTEXT (Summary)**:\n" ++
  pyTake 1500 market_report ++
  "\n\n**WEB RESEARCH FINDINGS (Summary)**:\n" ++
  pyTake 2000 web_research_data ++
  "\n\n**CHAIN-OF-THOUGHT INSTRUCTIONS**:\nFor each phase of the plan, briefly explain your reasoning, covering the objective, key steps, deliverables, and potential risks.\n\n**REQUIRED EXECUTION PLAN STRUCTURE**:\nCreate a multi-phase plan covering the first 24 months. Each phase should include objectives, key actions, deliverables, and required resources.\n\n-   **Executive Summary**: Vision, success metrics, timeline, and key milestones.\n-   **Phase 1: Foundation & Prep (Months 1-3)**: Legal, team, financial, and market intelligence setup.\n-   **Phase 2: Product Development (Months 2-8)**: MVP strategy, development, and beta testing.\n-   **Phase 3: Market Validation (Months 6-12)**: Initial launch, customer acquisition, and achieving product-market fit.\n-   **Phase 4: Scaling Operations (Months 10-18)**: Building scalable operations, partnerships, and infrastructure.\n-   **Phase 5: Growth & Expansion (Months 16-24)**: Scaling marketing, sales, and market reach.\n-   **Risk Management**: Outline key market, operational, and financial risks and mitigation strategies.\n-   **Resource Summary**: High-level overview of human, financial, and tech resources needed.\n\n**OUTPUT REQUIREMENTS**:\n- Be detailed, specific, and actionable.\n- Use data from the market and web research to support your recommendations.\n\nBegin your chain-of-thought execution planning now:"

/-- Prompt of `StrategicAnalyzer.get_strategic_analysis_prompt`
(StrategicAnalyzer.py 32-315).  Prior-stage contributions are the slices
`market_report[:2500]` and `execution_plan[:2500]`; apostrophes of the source
text are written as the escape x27. -/
def get_strategic_analysis_prompt (user_idea market_report execution_plan : String) : String :=
  "You are a world-class business strategist and competitive intelligence expert with 30+ years of experience analyzing business opportunities and creating differentiation strategies. Your task is to conduct a comprehensive strategic analysis of this business idea.\n\n**BUSINESS IDEA**: " ++
  user_idea ++
  "\n\n**MARKET RESEARCH CONTEXT**:\n" ++
  pyTake 2500 market_report ++
  "\n\n**EXECUTION PLAN CONTEXT**:\n" ++
  pyTake 2500 execution_plan ++
  "\n\n**STRATEGIC ANALYSIS FRAMEWORK**:\nAnalyze this business opportunity through multiple strategic lenses and provide actionable insights for competitive advantage.\n\n**REQUIRED ANALYSIS SECTIONS**:\n\n## 1. COMPREHENSIVE POSITIVE ANALYSIS\n\n### 1.1 MARKET OPPORTUNITIES\n- **Market Timing Advantages**: Why now is the right time for this idea\n- **Market Size & Growth Potential**: Quantitative opportunities and growth drivers\n- **Customer Pain Point Solutions**: Specific problems this idea solves better than alternatives\n- **Market Gap Exploitation**: Underserved segments and white space opportunities\n- **Technology Convergence**: How emerging technologies favor this approach\n- **Regulatory Tailwinds**: Favorable policy and regulatory trends\n\n### 1.2 COMPETITIVE ADVANTAGES\n- **First-Mover Advantages**: Early market entry benefits\n- **Unique Value Proposition**: Distinctive benefits over existing solutions\n- **Network Effects**: Potential for viral growth and network value\n- **Economies of Scale**: Cost advantages at scale\n- **Barrier Creation Potential**: Ways to build competitive moats\n- **Strategic Asset Development**: Valuable resources and capabilities to build\n\n### 1.3 EXECUTION STRENGTHS\n- **Resource Efficiency**: Lean approaches and capital efficiency\n- **Implementation Feasibility**: Realistic and achievable execution plan\n- **Risk Mitigation**: Well-planned risk management strategies\n- **Scalability Design**: Built-in scaling mechanisms\n- **Partnership Potential**: Strategic alliance opportunities\n- **Technology Advantages**: Technical superiority and innovation\n\n### 1.4 FINANCIAL UPSIDE\n- **Revenue Diversification**: Multiple revenue stream opportunities\n- **High Margin Potential**: Path to strong profitability\n- **Asset-Light Model**: Low capital requirements for growth\n- **Recurring Revenue**: Subscription and recurring income potential\n- **Exit Opportunities**: Acquisition and IPO potential\n- **Investment Attractiveness**: Appeal to investors and funding sources\n\n## 2. COMPREHENSIVE NEGATIVE ANALYSIS & RISKS\n\n### 2.1 MARKET CHALLENGES\n- **Market Maturity Risks**: Potential market saturation and declining growth\n- **Customer Adoption Barriers**: Obstacles to customer acceptance and usage\n- **Market Education Needs**: Cost and time to educate market about solution\n- **Seasonal/Cyclical Risks**: Business cycle and seasonal demand variations\n- **Market Fragmentation**: Difficulty in capturing significant market share\n- **Regulatory Uncertainty**: Potential adverse regulatory changes\n\n### 2.2 COMPETITIVE THREATS\n- **Incumbent Advantage**: Established players\x27 response capabilities\n- **Big Tech Entry**: Risk of major technology companies entering market\n- **Low Barrier to Entry**: Easy replication by competitors\n- **Substitute Solutions**: Alternative approaches that could displace the idea\n- **Price Competition**: Potential race to the bottom on pricing\n- **Patent/IP Risks**: Intellectual property challenges and litigation risks\n\n### 2.3 EXECUTION VULNERABILITIES\n- **Resource Constraints**: Funding, talent, and capability gaps\n- **Technical Complexity**: Development and implementation challenges\n- **Scaling Difficulties**: Operational challenges in rapid growth\n- **Quality Control**: Maintaining standards during expansion\n- **Key Person Dependencies**: Over-reliance on specific individuals\n- **Timeline Optimism**: Potential delays and execution setbacks\n\n### 2.4 FINANCIAL RISKS\n- **High Customer Acquisition Cost**: Expensive marketing and sales requirements\n- **Long Payback Periods**: Extended time to profitability\n- **Cash Flow Challenges**: Working capital and burn rate issues\n- **Unit Economics**: Difficulty achieving positive unit economics\n- **Market Price Pressure**: Downward pressure on pricing and margins\n- **Investment Requirements**: Higher than expected capital needs\n\n### 2.5 STRATEGIC VULNERABILITIES\n- **Platform Dependency**: Over-reliance on third-party platforms\n- **Supply Chain Risks**: Disruption in key suppliers or partners\n- **Technology Obsolescence**: Risk of technical approach becoming outdated\n- **Talent Competition**: Difficulty attracting and retaining key talent\n- **Geographic Limitations**: Challenges in global expansion\n- **Regulatory Compliance**: Ongoing compliance costs and complexity\n\n## 3. STRATEGIC MODIFICATIONS FOR COMPETITIVE ADVANTAGE\n\n### 3.1 PRODUCT DIFFERENTIATION STRATEGIES\n**Enhanced Features & Capabilities**:\n- **Unique Feature Additions**: Specific features competitors don\x27t offer\n- **Superior User Experience**: UX/UI improvements for competitive advantage\n- **Advanced Analytics**: AI/ML capabilities for better insights\n- **Integration Capabilities**: Seamless connectivity with popular tools\n- **Customization Options**: Flexible configuration for different use cases\n- **Performance Optimization**: Speed, reliability, and efficiency improvements\n\n**Technology Innovation**:\n- **Emerging Technology Integration**: AR/VR, blockchain, IoT applications\n- **AI/ML Enhancement**: Machine learning for predictive capabilities\n- **Mobile-First Design**: Optimized mobile experience\n- **Cloud-Native Architecture**: Scalable, distributed system design\n- **API-First Approach**: Ecosystem-friendly integration strategy\n- **Security Enhancement**: Advanced security and privacy features\n\n### 3.2 BUSINESS MODEL INNOVATIONS\n**Revenue Model Optimization**:\n- **Hybrid Revenue Streams**: Combining subscription, transaction, and advertising\n- **Freemium Strategy**: Free tier with premium upgrade path\n- **Usage-Based Pricing**: Pay-per-use or consumption-based models\n- **Marketplace Model**: Platform connecting buyers and sellers\n- **Data Monetization**: Leveraging data insights for additional revenue\n- **Partnership Revenue**: Revenue sharing with strategic partners\n\n**Value Chain Repositioning**:\n- **Vertical Integration**: Controlling more of the value chain\n- **Platform Strategy**: Becoming the platform others build on\n- **Ecosystem Creation**: Building network of complementary services\n- **White-Label Offering**: Licensing solution to other companies\n- **Consulting Services**: High-margin advisory services addition\n- **Training & Certification**: Educational revenue streams\n\n### 3.3 GO-TO-MARKET DIFFERENTIATION\n**Customer Acquisition Innovation**:\n- **Community-Driven Growth**: Building engaged user communities\n- **Viral Mechanisms**: Built-in sharing and referral features\n- **Content Marketing**: Thought leadership and educational content\n- **Partnership Channels**: Strategic distribution partnerships\n- **Direct Sales Excellence**: High-touch enterprise sales approach\n- **Digital Marketing Mastery**: Advanced SEO, SEM, and social strategies\n\n**Customer Success Differentiation**:\n- **Onboarding Excellence**: Best-in-class customer onboarding experience\n- **Success Management**: Proactive customer success programs\n- **Support Innovation**: AI-powered support and self-service options\n- **Training Programs**: Comprehensive user education and certification\n- **Community Building**: User forums and peer-to-peer support\n- **Feedback Loops**: Continuous product improvement based on user input\n\n### 3.4 OPERATIONAL EXCELLENCE MODIFICATIONS\n**Process Innovation**:\n- **Automation Strategy**: Automated workflows and processes\n- **Quality Systems**: Six Sigma or similar quality management\n- **Agile Development**: Rapid iteration and continuous deployment\n- **Data-Driven Operations**: Analytics for operational optimization\n- **Remote-First Operations**: Distributed team optimization\n- **Sustainability Focus**: Environmental and social responsibility\n\n**Strategic Positioning**:\n- **Niche Domination**: Becoming the leader in a specific segment\n- **Premium Positioning**: Higher-quality, higher-price strategy\n- **Cost Leadership**: Lowest-cost provider strategy\n- **Innovation Leadership**: Continuous innovation and R&D investment\n- **Customer Intimacy**: Deep customer relationships and customization\n- **Ecosystem Orchestration**: Coordinating network of partners\n\n## 4. COMPETITIVE DIFFERENTIATION STRATEGIES\n\n### 4.1 IMMEDIATE DIFFERENTIATION (0-6 months)\n**Quick Wins**:\n- **Feature Gaps**: Address specific gaps in competitor offerings\n- **User Experience**: Superior design and usability\n- **Customer Service**: Exceptional support and responsiveness\n- **Pricing Strategy**: Competitive pricing with better value\n- **Marketing Messaging**: Clear, compelling value proposition\n- **Partnership Announcements**: Strategic partnerships for credibility\n\n### 4.2 MEDIUM-TERM DIFFERENTIATION (6-18 months)\n**Competitive Moats**:\n- **Network Effects**: Building user network that creates value\n- **Data Advantages**: Proprietary data sets and insights\n- **Brand Building**: Strong brand recognition and loyalty\n- **Talent Acquisition**: Attracting top talent in the industry\n- **Technology Leadership**: Advanced technical capabilities\n- **Customer Lock-in**: Switching costs and integration depth\n\n### 4.3 LONG-TERM DIFFERENTIATION (18+ months)\n**Sustainable Advantages**:\n- **Innovation Pipeline**: Continuous R&D and new product development\n- **Market Ecosystem**: Becoming central to industry ecosystem\n- **Global Expansion**: International market presence\n- **Acquisition Strategy**: Strategic acquisitions for capability building\n- **Platform Evolution**: Evolution from product to platform\n- **Industry Standards**: Setting or influencing industry standards\n\n## 5. IMPLEMENTATION PRIORITIZATION\n\n### 5.1 HIGH-IMPACT, LOW-EFFORT MODIFICATIONS\n**Immediate Actions** (implement within 30 days):\n- [List specific modifications that can be implemented quickly]\n\n### 5.2 HIGH-IMPACT, HIGH-EFFORT MODIFICATIONS  \n**Strategic Initiatives** (6-12 month projects):\n- [List major strategic changes requiring significant investment]\n\n### 5.3 INNOVATION EXPERIMENTS\n**Future Opportunities** (research and pilot projects):\n- [List experimental approaches to test and validate]\n\n## 6. SUCCESS METRICS & MONITORING\n\n### 6.1 Competitive Position Metrics\n- Market share growth vs competitors\n- Brand recognition and sentiment\n- Customer acquisition cost vs competitors\n- Customer lifetime value comparison\n- Feature comparison scores\n- Innovation pipeline strength\n\n### 6.2 Differentiation Effectiveness Metrics\n- Unique value proposition recognition\n- Price premium capability\n- Customer switching rates (churn)\n- Net promoter score vs competitors\n- Media and analyst recognition\n- Partnership quality and quantity\n\n## 7. STRATEGIC RECOMMENDATIONS SUMMARY\n\n**TOP 5 POSITIVE FACTORS TO LEVERAGE**:\n1. [Specific positive factor with action plan]\n2. [Specific positive factor with action plan]\n3. [Specific positive factor with action plan]\n4. [Specific positive factor with action plan]\n5. [Specific positive factor with action plan]\n\n**TOP 5 CRITICAL RISKS TO MITIGATE**:\n1. [Specific risk with mitigation strategy]\n2. [Specific risk with mitigation strategy]\n3. [Specific risk with mitigation strategy]\n4. [Specific risk with mitigation strategy]\n5. [Specific risk with mitigation strategy]\n\n**TOP 5 DIFFERENTIATION OPPORTUNITIES**:\n1. [Specific differentiation with implementation approach]\n2. [Specific differentiation with implementation approach]\n3. [Specific differentiation with implementation approach]\n4. [Specific differentiation with implementation approach]\n5. [Specific differentiation with implementation approach]\n\n**STRATEGIC DECISION FRAMEWORK**:\n- Investment priority matrix\n- Risk tolerance guidelines\n- Competitive response protocols\n- Innovation investment allocation\n- Partnership evaluation criteria\n\n**NEXT STEPS & ACTION ITEMS**:\n- Immediate actions (next 30 days)\n- Short-term initiatives (3-6 months)\n- Long-term strategic projects (12+ months)\n- Continuous monitoring requirements\n- Review and update schedule\n\n**OUTPUT REQUIREMENTS**:\n- Be extremely specific and actionable\n- Include quantitative estimates where possible\n- Provide clear implementation timelines\n- Consider resource requirements for each recommendation\n- Address both offensive (growth) and defensive (protection) strategies\n- Balance innovation with execution practicality\n- Consider different scenarios (optimistic, realistic, pessimistic)\n\nBegin your comprehensive strategic analysis now:"

/-- Prompt of `StrategicAnalyzer.quick_swot_analysis` (StrategicAnalyzer.py
513-528): the SWOT f-string interpolating `user_idea`. -/
def swot_prompt (user_idea : String) : String :=
  "Conduct SWOT analysis for: " ++ user_idea ++
  "\n\n**STRENGTHS** (Internal Positive Factors):\n- List 5 key internal advantages and capabilities\n\n**WEAKNESSES** (Internal Negative Factors):  \n- List 5 key internal limitations and challenges\n\n**OPPORTUNITIES** (External Positive Factors):\n- List 5 key market opportunities and external factors\n\n**THREATS** (External Negative Factors):\n- List 5 key competitive and market threats\n\nFor each factor, provide brief explanation and strategic implication.\nKeep concise but actionable (under 1000 words)."

/-- Prompt of `build_prompt` (Chatbot.py 19-35): interpolates the three loaded
reports and the user question; no truncation is applied. -/
def build_prompt (mr ep sa question : String) : String :=
  "\nYou are an expert innovation agent assistant. Answer the user\x27s question using ONLY the information\nfrom the following three reports. Provide a clear, concise answer.\n\n--- MARKET RESEARCH REPORT ---\n" ++
  mr ++
  "\n\n--- EXECUTION PLAN REPORT ---\n" ++
  ep ++
  "\n\n--- STRATEGIC ANALYSIS REPORT ---\n" ++
  sa ++
  "\n\n--- USER QUESTION ---\n" ++
  question ++ "\n"

/-- Result dict of `analyze_market_opportunity` (MarketResearchAnalysis.py):
one constructor per `return` dict literal (lines 101-113, 122, 126, 128; the
lines 126 and 128 literals have the same single key and share `errorOnly`). -/
inductive MRDict where
  | success (user_idea analysis_timestamp model_used market_research_analysis : String)
      (total_tokens : Option Nat)
  | rateLimitFailure (error details : String)
  | errorOnly (error : String)
deriving DecidableEq

/-- Top-level keys of the corresponding Python dict literal. -/
def MRDict.keys : MRDict → List String
  | .success _ _ _ _ _ =>
      ["user_idea", "analysis_timestamp", "model_used", "market_research_analysis",
       "web_search_data", "reasoning_process", "analysis_metadata"]
  | .rateLimitFailure _ _ => ["error", "details"]
  | .errorOnly _ => ["error"]

/-- Keys of the nested `analysis_metadata` dict (empty when absent). -/
def MRDict.metadataKeys : MRDict → List String
  | .success _ _ _ _ _ => ["total_tokens", "analysis_depth", "web_searches_performed"]
  | .rateLimitFailure _ _ => []
  | .errorOnly _ => []

def MRDict.isSuccess : MRDict → Bool
  | .success _ _ _ _ _ => true
  | _ => false

/-- Packaging of the raw loop outcome into the dict
`analyze_market_opportunity` returns (its `return` statements). -/
def mr_finalize (user_idea now : String) : RawResult → MRDict
  | .completed text tokens => .success user_idea now "groq/compound" text tokens
  | .rateLimitExhausted e =>
      .rateLimitFailure "Analysis failed after 3 attempts due to persistent rate limiting." e.msg
  | .fatalException e => .errorOnly ("An unexpected error occurred during analysis: " ++ e.msg)
  | .loopFellThrough => .errorOnly "Analysis failed after all retries."

/-- `InnovationMarketResearcher.analyze_market_opportunity`
(MarketResearchAnalysis.py 67-128): the prompt is built once (line 72) before
the retry loop (`max_retries = 3`, `retry_delay = 61`), and the pair of the
event trace and the returned dict is produced. -/
def analyze_market_opportunity (backend : GroqBackend) (user_idea now : String) :
    List StageEvent × MRDict :=
  let r := call_with_retry backend (get_universal_market_research_prompt user_idea) 61 3 0
  (r.1, mr_finalize user_idea now r.2)

/-- Result dict of `research_execution_strategies` (ExecutionPlanGenerator.py
102-118): every `return` literal carries a `research_data` entry — the error
literals set it to the string `"Not available."`. -/
inductive WRDict where
  | success (research_data timestamp : String)
  | rateLimitFailure (error details research_data : String)
  | errorOnly (error research_data : String)
deriving DecidableEq

def WRDict.keys : WRDict → List String
  | .success _ _ => ["research_data", "timestamp"]
  | .rateLimitFailure _ _ _ => ["error", "details", "research_data"]
  | .errorOnly _ _ => ["error", "research_data"]

def WRDict.isSuccess : WRDict → Bool
  | .success _ _ => true
  | _ => false

/-- Python `web_research.get('research_data', default)`
(ExecutionPlanGenerator.py 130, app.py 282).  The key is present in every
literal, so the default is never used. -/
def WRDict.getResearchData (d : WRDict) (_dflt : String) : String :=
  match d with
  | .success t _ => t
  | .rateLimitFailure _ _ rd => rd
  | .errorOnly _ rd => rd

def wr_finalize (now : String) : RawResult → WRDict
  | .completed text _ => .success text now
  | .rateLimitExhausted e =>
      .rateLimitFailure "Web research failed after 3 attempts due to persistent rate limiting."
        e.msg "Not available."
  | .fatalException e =>
      .errorOnly ("An unexpected error occurred during web research: " ++ e.msg) "Not available."
  | .loopFellThrough => .errorOnly "Web research failed after all retries." "Not available."

/-- `ExecutionPlanGenerator.research_execution_strategies`
(ExecutionPlanGenerator.py 84-118): same retry loop (`max_retries = 3`,
`retry_delay = 61`), prompt built once before the loop. -/
def research_execution_strategies (backend : GroqBackend) (user_idea market_report now : String) :
    List StageEvent × WRDict :=
  let r := call_with_retry backend (get_web_research_prompt user_idea market_report) 61 3 0
  (r.1, wr_finalize now r.2)

/-- Outcome of a `try: client.chat.completions.create(...) except Exception`
block with no retry loop (ExecutionPlanGenerator.py 133-153,
StrategicAnalyzer.py 530-543, Chatbot.py 63-78): `except Exception` also
catches `RateLimitError`, so every raised exception ends the call. -/
inductive SingleResult where
  | completed (text : String) (totalTokens : Option Nat)
  | raised (e : PyError)
deriving DecidableEq

/-- The single attempt such a block makes. -/
def single_attempt_call (backend : GroqBackend) (prompt : String) :
    List StageEvent × SingleResult :=
  match backend 0 with
  | .ok t tok => ([.call prompt], .completed t tok)
  | .raise e => ([.call prompt], .raised e)

/-- Result dict of `generate_execution_plan` (ExecutionPlanGenerator.py
145-153): the success literal or the `except` literal. -/
inductive EPDict where
  | success (user_idea market_report web_research_summary execution_plan
      generation_timestamp : String)
  | errorOnly (error : String)
deriving DecidableEq

def EPDict.keys : EPDict → List String
  | .success _ _ _ _ _ =>
      ["user_idea", "market_report", "web_research_summary", "execution_plan",
       "generation_timestamp"]
  | .errorOnly _ => ["error"]

def EPDict.isSuccess : EPDict → Bool
  | .success _ _ _ _ _ => true
  | _ => false

/-- Full record of one `generate_execution_plan` invocation
(ExecutionPlanGenerator.py 120-153): web research first, then the planning
prompt is built from `web_research.get('research_data', '')` (line 130), then
one unretried call to the reasoning model (lines 133-153).  A web-research
failure only prints a warning (lines 127-128); execution continues. -/
structure EPRun where
  researchTrace : List StageEvent
  webResearch : WRDict
  planningPrompt : String
  planTrace : List StageEvent
  result : EPDict

def generate_execution_plan (researchBackend planBackend : GroqBackend)
    (user_idea market_report now : String) : EPRun :=
  let wr := research_execution_strategies researchBackend user_idea market_report now
  let planningPrompt :=
    get_execution_planning_prompt user_idea market_report (wr.2.getResearchData "")
  let p := single_attempt_call planBackend planningPrompt
  { researchTrace := wr.1
    webResearch := wr.2
    planningPrompt := planningPrompt
    planTrace := p.1
    result :=
      match p.2 with
      | .completed text _ =>
          .success user_idea market_report (wr.2.getResearchData "") text now
      | .raised e => .errorOnly ("Execution planning failed: " ++ e.msg) }

/-- Python `x[:500] + "..." if len(x) > 500 else x` (StrategicAnalyzer.py
415-416). -/
def summary_500 (s : String) : String :=
  if 500 < s.length then pyTake 500 s ++ "..." else s

/-- Result dict of `analyze_strategy` (StrategicAnalyzer.py 413-444): the
success literal or one of the two error literals (both with keys `error`,
`user_idea`, `timestamp`). -/
inductive SADict where
  | success (user_idea market_report_summary execution_plan_summary strategic_analysis
      analysis_timestamp : String) (total_tokens : Option Nat)
  | rateLimitFailure (error user_idea timestamp : String)
  | unexpectedFailure (error user_idea timestamp : String)
deriving DecidableEq

def SADict.keys : SADict → List String
  | .success _ _ _ _ _ _ =>
      ["user_idea", "market_report_summary", "execution_plan_summary",
       "strategic_analysis", "analysis_timestamp", "model_used", "analysis_type",
       "analysis_metadata"]
  | .rateLimitFailure _ _ _ => ["error", "user_idea", "timestamp"]
  | .unexpectedFailure _ _ _ => ["error", "user_idea", "timestamp"]

def SADict.metadataKeys : SADict → List String
  | .success _ _ _ _ _ _ => ["total_tokens", "analysis_depth", "analysis_framework"]
  | .rateLimitFailure _ _ _ => []
  | .unexpectedFailure _ _ _ => []

def SADict.isSuccess : SADict → Bool
  | .success _ _ _ _ _ _ => true
  | _ => false

/-- Packaging of the raw loop outcome into `analyze_strategy`'s returned value.
Unlike the other two loops, `analyze_strategy` has no `return` after its
`for` loop, so falling through would make the Python function return `None`:
that case is modelled as `none`. -/
def sa_finalize (user_idea market_report execution_plan now : String) :
    RawResult → Option SADict
  | .completed text tokens =>
      some (.success user_idea (summary_500 market_report) (summary_500 execution_plan)
        text now tokens)
  | .rateLimitExhausted e =>
      some (.rateLimitFailure ("Strategic analysis failed after multiple retries: " ++ e.msg)
        user_idea now)
  | .fatalException e =>
      some (.unexpectedFailure ("Strategic analysis failed: " ++ e.msg) user_idea now)
  | .loopFellThrough => none

/-- `StrategicAnalyzer.analyze_strategy` (StrategicAnalyzer.py 317-444) with
all three text inputs supplied by the caller (as app.py does), so the
interactive input branches are skipped: prompt built once (line 385), then
the retry loop (`max_retries = 3`, `retry_delay = 61`). -/
def analyze_strategy (backend : GroqBackend)
    (user_idea market_report execution_plan now : String) :
    List StageEvent × Option SADict :=
  let r := call_with_retry backend
    (get_strategic_analysis_prompt user_idea market_report execution_plan) 61 3 0
  (r.1, sa_finalize user_idea market_report execution_plan now r.2)

/-- `StrategicAnalyzer.quick_swot_analysis` (StrategicAnalyzer.py 502-543):
one unretried call; on any exception the returned value is the plain string
`"SWOT analysis failed: ..."`. -/
def quick_swot_analysis (backend : GroqBackend) (user_idea : String) :
    List StageEvent × String :=
  let p := single_attempt_call backend (swot_prompt user_idea)
  (p.1, match p.2 with
    | .completed text _ => text
    | .raised e => "SWOT analysis failed: " ++ e.msg)

/-- Outcome of one question/answer turn of the Chatbot CLI loop. -/
inductive ChatTurn where
  | answered (text : String)
  | errorPrinted (msg : String)
deriving DecidableEq

/-- One iteration of the `while True` loop of `Chatbot.main` (Chatbot.py
51-78) for a non-empty, non-exit question: one unretried call wrapped in
`try ... except Exception`; the answer is `.strip()`ped. -/
def chat_answer (backend : GroqBackend) (mr ep sa question : String) :
    List StageEvent × ChatTurn :=
  let p := single_attempt_call backend (build_prompt mr ep sa question)
  (p.1, match p.2 with
    | .completed text _ => .answered text.trim
    | .raised e => .errorPrinted ("Error: " ++ e.msg))

/-- `load_report` (Chatbot.py 12-17): the file system is modelled as a partial
map from path to contents; `FileNotFoundError` yields the placeholder string,
not an empty string. -/
def load_report (fileSystem : String → Option String) (path : String) : String :=
  match fileSystem path with
  | some contents => contents
  | none => "[[REPORT NOT FOUND: " ++ path ++ "]]"

/-- Gate of the Streamlit app (app.py 504): the analysis section — and with it
every backend call of the app flow — is reachable only when
`user_idea and len(user_idea) > 20` holds; there is no emptiness or
whitespace check beyond truthiness. -/
def idea_captured (user_idea : String) : Bool :=
  (!user_idea.isEmpty) && decide (20 < user_idea.length)

/-- Number of backend calls the app flow makes for the market-research step
(app.py 513-528): zero when the gate hides the button, otherwise the calls of
`analyze_market_opportunity`. -/
def app_market_research_calls (backend : GroqBackend) (user_idea now : String) : Nat :=
  if idea_captured user_idea then
    countCalls (analyze_market_opportunity backend user_idea now).1
  else 0

lemma pyTake_of_length_le (n : Nat) (s : String) (h : s.length ≤ n) :
    pyTake n s = s := by
  cases s with
  | mk l =>
    simp only [pyTake]
    exact congrArg String.mk (List.take_of_length_le h)

lemma pyTake_pyTake (n : Nat) (s : String) :
    pyTake n (pyTake n s) = pyTake n s := by
  cases s with
  | mk l =>
    simp [pyTake, List.take_take]

lemma length_pyTake (n : Nat) (s : String) :
    (pyTake n s).length = min n s.length := by
  cases s with
  | mk l =>
    simp [pyTake, String.length]

lemma pyTake_append_drop (n : Nat) (s : String) :
    pyTake n s ++ String.mk (s.data.drop n) = s := by
  cases s with
  | mk l =>
    show String.mk (l.take n ++ l.drop n) = String.mk l
    exact congrArg String.mk (List.take_append_drop n l)

lemma BackendOutcome.isOk_eq_false_of_isRateLimited {o : BackendOutcome}
    (h : o.isRateLimited = true) : o.isOk = false := by
  cases o with
  | ok t tok => simp [BackendOutcome.isRateLimited] at h
  | raise e => rfl

lemma call_with_retry_ok {backend : GroqBackend} {attempt : Nat} {t : String}
    {tok : Option Nat} (p : String) (d fuel : Nat)
    (h : backend attempt = .ok t tok) :
    call_with_retry backend p d (fuel + 1) attempt = ([.call p], .completed t tok) := by
  simp [call_with_retry, h]

lemma call_with_retry_fatal {backend : GroqBackend} {attempt : Nat} {e : PyError}
    (p : String) (d fuel : Nat)
    (h : backend attempt = .raise e) (hrl : e.isRateLimit = false) :
    call_with_retry backend p d (fuel + 1) attempt = ([.call p], .fatalException e) := by
  simp [call_with_retry, h, hrl]

lemma call_with_retry_retry {backend : GroqBackend} {attempt : Nat} {e : PyError}
    (p : String) (d : Nat) {fuel : Nat}
    (h : backend attempt = .raise e) (hrl : e.isRateLimit = true) (hfuel : 0 < fuel) :
    call_with_retry backend p d (fuel + 1) attempt =
      (.call p :: .sleep d :: (call_with_retry backend p d fuel (attempt + 1)).1,
       (call_with_retry backend p d fuel (attempt + 1)).2) := by
  simp [call_with_retry, h, hrl, hfuel]

lemma call_with_retry_exhaust {backend : GroqBackend} {attempt : Nat} {e : PyError}
    (p : String) (d : Nat)
    (h : backend attempt = .raise e) (hrl : e.isRateLimit = true) :
    call_with_retry backend p d 1 attempt = ([.call p], .rateLimitExhausted e) := by
  simp [call_with_retry, h, hrl]

lemma countCalls_call_with_retry_le (backend : GroqBackend) (p : String) (d : Nat) :
    ∀ fuel attempt, countCalls (call_with_retry backend p d fuel attempt).1 ≤ fuel := by
  intro fuel
  induction fuel with
  | zero =>
    intro attempt
    simp [call_with_retry, countCalls]
  | succ fuel ih =>
    intro attempt
    cases h : backend attempt with
    | ok t tok =>
      rw [call_with_retry_ok p d fuel h]
      simp [countCalls, isCallEvent]
    | raise e =>
      by_cases hrl : e.isRateLimit = true
      · by_cases hfuel : 0 < fuel
        · rw [call_with_retry_retry p d h hrl hfuel]
          have := ih (attempt + 1)
          simp [countCalls, List.countP_cons, isCallEvent] at *
          omega
        · have hfuel0 : fuel = 0 := by omega
          subst hfuel0
          rw [call_with_retry_exhaust p d h hrl]
          simp [countCalls, isCallEvent]
      · rw [call_with_retry_fatal p d fuel h (by simpa using hrl)]
        simp [countCalls, isCallEvent]

lemma one_le_countCalls_call_with_retry (backend : GroqBackend) (p : String)
    (d fuel attempt : Nat) :
    1 ≤ countCalls (call_with_retry backend p d (fuel + 1) attempt).1 := by
  cases h : backend attempt with
  | ok t tok =>
    rw [call_with_retry_ok p d fuel h]
    simp [countCalls, isCallEvent]
  | raise e =>
    by_cases hrl : e.isRateLimit = true
    · by_cases hfuel : 0 < fuel
      · rw [call_with_retry_retry p d h hrl hfuel]
        simp [countCalls, isCallEvent]
      · have hfuel0 : fuel = 0 := by omega
        subst hfuel0
        rw [call_with_retry_exhaust p d h hrl]
        simp [countCalls, isCallEvent]
    · rw [call_with_retry_fatal p d fuel h (by simpa using hrl)]
      simp [countCalls, isCallEvent]

lemma call_with_retry_ne_fellThrough (backend : GroqBackend) (p : String) (d : Nat) :
    ∀ fuel attempt, 0 < fuel →
      (call_with_retry backend p d fuel attempt).2 ≠ .loopFellThrough := by
  intro fuel
  induction fuel with
  | zero => intro attempt h; omega
  | succ fuel ih =>
    intro attempt _
    cases h : backend attempt with
    | ok t tok =>
      rw [call_with_retry_ok p d fuel h]
      simp
    | raise e =>
      by_cases hrl : e.isRateLimit = true
      · by_cases hfuel : 0 < fuel
        · rw [call_with_retry_retry p d h hrl hfuel]
          exact ih (attempt + 1) hfuel
        · have hfuel0 : fuel = 0 := by omega
          subst hfuel0
          rw [call_with_retry_exhaust p d h hrl]
          simp
      · rw [call_with_retry_fatal p d fuel h (by simpa using hrl)]
        simp

lemma call_with_retry_result_cases (backend : GroqBackend) (p : String) (d : Nat)
    (fuel attempt : Nat) (hfuel : 0 < fuel) :
    (∃ t tok, (call_with_retry backend p d fuel attempt).2 = .completed t tok) ∨
    (∃ e, (call_with_retry backend p d fuel attempt).2 = .rateLimitExhausted e) ∨
    (∃ e, (call_with_retry backend p d fuel attempt).2 = .fatalException e) := by
  cases hr : (call_with_retry backend p d fuel attempt).2 with
  | completed t tok => exact Or.inl ⟨t, tok, rfl⟩
  | rateLimitExhausted e => exact Or.inr (Or.inl ⟨e, rfl⟩)
  | fatalException e => exact Or.inr (Or.inr ⟨e, rfl⟩)
  | loopFellThrough => exact absurd hr (call_with_retry_ne_fellThrough backend p d fuel attempt hfuel)

lemma succeeds_from_zero (backend : GroqBackend) (fuel : Nat) :
    succeeds_from backend 0 fuel ↔ succeeds_within backend fuel := by
  unfold succeeds_from succeeds_within
  simp

lemma succeeds_from_shift {backend : GroqBackend} {start : Nat} (fuel : Nat)
    (h : (backend start).isRateLimited = true) :
    succeeds_from backend (start + 1) fuel ↔ succeeds_from backend start (fuel + 1) := by
  constructor
  · rintro ⟨i, hi, hok, hprev⟩
    refine ⟨i + 1, by omega, ?_, ?_⟩
    · have : start + (i + 1) = start + 1 + i := by omega
      rw [this]; exact hok
    · intro j hj
      cases j with
      | zero => simpa using h
      | succ j =>
        have : start + (j + 1) = start + 1 + j := by omega
        rw [this]; exact hprev j (by omega)
  · rintro ⟨i, hi, hok, hprev⟩
    cases i with
    | zero =>
      exfalso
      have := BackendOutcome.isOk_eq_false_of_isRateLimited h
      simp only [Nat.add_zero] at hok
      rw [this] at hok
      exact Bool.false_ne_true hok
    | succ i =>
      refine ⟨i, by omega, ?_, ?_⟩
      · have : start + 1 + i = start + (i + 1) := by omega
        rw [this]; exact hok
      · intro j hj
        have : start + 1 + j = start + (j + 1) := by omega
        rw [this]; exact hprev (j + 1) (by omega)

/-- The shared retry loop yields a `completed` result exactly when the backend
delivers a completion before the rate-limit budget runs out. -/
lemma call_with_retry_completed_iff (backend : GroqBackend) (p : String) (d : Nat) :
    ∀ fuel attempt,
      (∃ t tok, (call_with_retry backend p d fuel attempt).2 = .completed t tok) ↔
      succeeds_from backend attempt fuel := by
  intro fuel
  induction fuel with
  | zero =>
    intro attempt
    constructor
    · rintro ⟨t, tok, h⟩
      simp [call_with_retry] at h
    · rintro ⟨i, hi, -⟩
      omega
  | succ fuel ih =>
    intro attempt
    cases h : backend attempt with
    | ok t tok =>
      rw [call_with_retry_ok p d fuel h]
      constructor
      · intro _
        exact ⟨0, by omega, by simpa [BackendOutcome.isOk] using congrArg BackendOutcome.isOk h,
               fun j hj => absurd hj (by omega)⟩
      · intro _
        exact ⟨t, tok, rfl⟩
    | raise e =>
      by_cases hrl : e.isRateLimit = true
      · have hrlo : (backend attempt).isRateLimited = true := by
          rw [h]; simpa [BackendOutcome.isRateLimited] using hrl
        by_cases hfuel : 0 < fuel
        · rw [call_with_retry_retry p d h hrl hfuel]
          rw [ih (attempt + 1)]
          exact succeeds_from_shift fuel hrlo
        · have hfuel0 : fuel = 0 := by omega
          subst hfuel0
          rw [call_with_retry_exhaust p d h hrl]
          constructor
          · rintro ⟨t, tok, hc⟩
            exact absurd hc (by simp)
          · rintro ⟨i, hi, hok, -⟩
            have hi0 : i = 0 := by omega
            subst hi0
            have := BackendOutcome.isOk_eq_false_of_isRateLimited hrlo
            simp only [Nat.add_zero] at hok
            rw [this] at hok
            exact absurd hok (by simp)
      · rw [call_with_retry_fatal p d fuel h (by simpa using hrl)]
        constructor
        · rintro ⟨t, tok, hc⟩
          exact absurd hc (by simp)
        · rintro ⟨i, hi, hok, hprev⟩
          cases i with
          | zero =>
            simp only [Nat.add_zero] at hok
            rw [h] at hok
            exact absurd hok (by simp [BackendOutcome.isOk])
          | succ i =>
            have := hprev 0 (by omega)
            simp only [Nat.add_zero] at this
            rw [h] at this
            simp [BackendOutcome.isRateLimited] at this
            exact absurd this hrl

lemma countSleeps_retryTrace (p : String) (d : Nat) :
    ∀ k, countSleeps (retryTrace p d k) = k := by
  intro k
  induction k with
  | zero => simp [retryTrace, countSleeps, isSleepEvent]
  | succ k ih => simp [retryTrace, countSleeps, List.countP_cons, isSleepEvent] at *; omega

lemma countCalls_retryTrace (p : String) (d : Nat) :
    ∀ k, countCalls (retryTrace p d k) = k + 1 := by
  intro k
  induction k with
  | zero => simp [retryTrace, countCalls, isCallEvent]
  | succ k ih => simp [retryTrace, countCalls, List.countP_cons, isCallEvent] at *; omega

lemma call_mem_retryTrace (p : String) (d : Nat) :
    ∀ k q, StageEvent.call q ∈ retryTrace p d k → q = p := by
  intro k
  induction k with
  | zero =>
    intro q hq
    simp [retryTrace] at hq
    exact hq
  | succ k ih =>
    intro q hq
    simp [retryTrace] at hq
    rcases hq with h | h
    · exact h
    · exact ih q h

lemma sleep_mem_retryTrace (p : String) (d : Nat) :
    ∀ k s, StageEvent.sleep s ∈ retryTrace p d k → s = d := by
  intro k
  induction k with
  | zero =>
    intro s hs
    simp [retryTrace] at hs
  | succ k ih =>
    intro s hs
    simp [retryTrace] at hs
    rcases hs with h | h
    · exact h
    · exact ih s h

lemma getLast_retryTrace (p : String) (d : Nat) :
    ∀ k, (retryTrace p d k).getLast? = some (.call p) := by
  intro k
  induction k with
  | zero => simp [retryTrace]
  | succ k ih =>
    show (StageEvent.call p :: StageEvent.sleep d :: retryTrace p d k).getLast? =
      some (StageEvent.call p)
    rw [List.getLast?_cons_cons]
    cases k with
    | zero => simp [retryTrace]
    | succ k =>
      show (StageEvent.sleep d :: StageEvent.call p :: StageEvent.sleep d ::
        retryTrace p d k).getLast? = some (StageEvent.call p)
      rw [List.getLast?_cons_cons]
      exact ih

/-- Trace and result of the shared loop under the concrete scenario of claim
C3: rate limited on the first `k` attempts (`k <` the budget of 3) and
successful on attempt `k`. -/
lemma call_with_retry_trace_of_rl_then_ok {backend : GroqBackend} (p : String)
    (d : Nat) {k : Nat} {t : String} {tok : Option Nat} (hk : k < 3)
    (hrl : ∀ i, i < k → ∃ m, backend i = .raise (.rateLimitError m))
    (hok : backend k = .ok t tok) :
    call_with_retry backend p d 3 0 = (retryTrace p d k, .completed t tok) := by
  interval_cases k
  · rw [call_with_retry_ok p d 2 hok]
    simp [retryTrace]
  · obtain ⟨m0, h0⟩ := hrl 0 (by omega)
    rw [call_with_retry_retry p d h0 rfl (by omega)]
    rw [call_with_retry_ok p d 1 hok]
    simp [retryTrace]
  · obtain ⟨m0, h0⟩ := hrl 0 (by omega)
    obtain ⟨m1, h1⟩ := hrl 1 (by omega)
    rw [call_with_retry_retry p d h0 rfl (by omega)]
    rw [call_with_retry_retry p d h1 rfl (by omega)]
    rw [call_with_retry_ok p d 0 hok]
    simp [retryTrace]

lemma countCalls_single_attempt_call (backend : GroqBackend) (prompt : String) :
    countCalls (single_attempt_call backend prompt).1 = 1 := by
  cases h : backend 0 with
  | ok t tok => simp [single_attempt_call, h, countCalls, isCallEvent]
  | raise e => simp [single_attempt_call, h, countCalls, isCallEvent]

lemma mrdict_success_or_error (d : MRDict) :
    d.isSuccess = true ∨ "error" ∈ d.keys := by
  cases d with
  | success a b c e f => exact Or.inl rfl
  | rateLimitFailure a b => exact Or.inr (by simp [MRDict.keys])
  | errorOnly a => exact Or.inr (by simp [MRDict.keys])

lemma sadict_success_or_error (d : SADict) :
    d.isSuccess = true ∨ "error" ∈ d.keys := by
  cases d with
  | success a b c e f g => exact Or.inl rfl
  | rateLimitFailure a b c => exact Or.inr (by simp [SADict.keys])
  | unexpectedFailure a b c => exact Or.inr (by simp [SADict.keys])

lemma analyze_market_opportunity_fst (backend : GroqBackend) (user_idea now : String) :
    (analyze_market_opportunity backend user_idea now).1 =
      (call_with_retry backend (get_universal_market_research_prompt user_idea) 61 3 0).1 := rfl

lemma analyze_market_opportunity_snd (backend : GroqBackend) (user_idea now : String) :
    (analyze_market_opportunity backend user_idea now).2 =
      mr_finalize user_idea now
        (call_with_retry backend (get_universal_market_research_prompt user_idea) 61 3 0).2 := rfl

lemma research_execution_strategies_fst (backend : GroqBackend)
    (user_idea market_report now : String) :
    (research_execution_strategies backend user_idea market_report now).1 =
      (call_with_retry backend (get_web_research_prompt user_idea market_report) 61 3 0).1 := rfl

lemma research_execution_strategies_snd (backend : GroqBackend)
    (user_idea market_report now : String) :
    (research_execution_strategies backend user_idea market_report now).2 =
      wr_finalize now
        (call_with_retry backend (get_web_research_prompt user_idea market_report) 61 3 0).2 := rfl

lemma analyze_strategy_fst (backend : GroqBackend)
    (user_idea market_report execution_plan now : String) :
    (analyze_strategy backend user_idea market_report execution_plan now).1 =
      (call_with_retry backend
        (get_strategic_analysis_prompt user_idea market_report execution_plan) 61 3 0).1 := rfl

lemma analyze_strategy_snd (backend : GroqBackend)
    (user_idea market_report execution_plan now : String) :
    (analyze_strategy backend user_idea market_report execution_plan now).2 =
      sa_finalize user_idea market_report execution_plan now
        (call_with_retry backend
          (get_strategic_analysis_prompt user_idea market_report execution_plan) 61 3 0).2 := rfl

/-- C1: for every stage call of `analyze_market_opportunity` and
`research_execution_strategies`, the number of backend attempts made never
exceeds `max_retries = 3`; and when the first attempt raises an exception that
is not a `RateLimitError` (the `Fatal` classification), the stage makes
exactly one attempt (its trace is one call, no sleep) and returns the
error-marked failure dict without retrying. -/
theorem C1_retry_bound_and_fatal_single_attempt :
    (∀ backend user_idea now,
      countCalls (analyze_market_opportunity backend user_idea now).1 ≤ 3) ∧
    (∀ backend user_idea market_report now,
      countCalls (research_execution_strategies backend user_idea market_report now).1 ≤ 3) ∧
    (∀ backend user_idea now e, PyError.isRateLimit e = false →
      backend 0 = BackendOutcome.raise e →
      (analyze_market_opportunity backend user_idea now).1 =
        [StageEvent.call (get_universal_market_research_prompt user_idea)] ∧
      (analyze_market_opportunity backend user_idea now).2 =
        MRDict.errorOnly ("An unexpected error occurred during analysis: " ++ e.msg)) ∧
    (∀ backend user_idea market_report now e, PyError.isRateLimit e = false →
      backend 0 = BackendOutcome.raise e →
      (research_execution_strategies backend user_idea market_report now).1 =
        [StageEvent.call (get_web_research_prompt user_idea market_report)] ∧
      (research_execution_strategies backend user_idea market_report now).2 =
        WRDict.errorOnly ("An unexpected error occurred during web research: " ++ e.msg)
          "Not available.") := by
  refine ⟨?_, ?_, ?_, ?_⟩
  · intro backend user_idea now
    rw [analyze_market_opportunity_fst]
    exact countCalls_call_with_retry_le backend _ 61 3 0
  · intro backend user_idea market_report now
    rw [research_execution_strategies_fst]
    exact countCalls_call_with_retry_le backend _ 61 3 0
  · intro backend user_idea now e he h0
    have h := call_with_retry_fatal (get_universal_market_research_prompt user_idea) 61 2 h0 he
    constructor
    · rw [analyze_market_opportunity_fst, h]
    · rw [analyze_market_opportunity_snd, h]
      rfl
  · intro backend user_idea market_report now e he h0
    have h := call_with_retry_fatal (get_web_research_prompt user_idea market_report) 61 2 h0 he
    constructor
    · rw [research_execution_strategies_fst, h]
    · rw [research_execution_strategies_snd, h]
      rfl

theorem C1_witness :
    PyError.isRateLimit (PyError.otherError "invalid request") = false ∧
    countCalls (analyze_market_opportunity
      (fun _ => BackendOutcome.raise (PyError.otherError "invalid request")) "an idea" "t0").1 ≤ 3 ∧
    (analyze_market_opportunity
      (fun _ => BackendOutcome.raise (PyError.otherError "invalid request")) "an idea" "t0").1 =
      [StageEvent.call (get_universal_market_research_prompt "an idea")] ∧
    (research_execution_strategies
      (fun _ => BackendOutcome.raise (PyError.otherError "invalid request")) "an idea" "mr"
      "t0").1 = [StageEvent.call (get_web_research_prompt "an idea" "mr")] :=
  ⟨rfl,
   C1_retry_bound_and_fatal_single_attempt.1 _ "an idea" "t0",
   (C1_retry_bound_and_fatal_single_attempt.2.2.1
      (fun _ => BackendOutcome.raise (PyError.otherError "invalid request")) "an idea" "t0"
      (PyError.otherError "invalid request") rfl rfl).1,
   (C1_retry_bound_and_fatal_single_attempt.2.2.2
      (fun _ => BackendOutcome.raise (PyError.otherError "invalid request")) "an idea" "mr" "t0"
      (PyError.otherError "invalid request") rfl rfl).1⟩

/-- C3: when the backend is rate-limited on the first `k` attempts
(`k < max_retries = 3`) and then succeeds, the stage trace (for the
market-research and web-research stages alike) is exactly `k` repetitions of
a call followed by a 61-second suspension, ending in the final successful
call: so the run sleeps exactly `k` times, every suspension precedes the next
retry, no suspension follows the final success, every sleep is 61 seconds,
and the identical prompt string — built once before the loop — is sent on
every attempt. -/
theorem C3_backoff_trace :
    ∀ (backend : GroqBackend) (user_idea market_report now : String) (k : Nat),
      k < 3 →
      (∀ i, i < k → ∃ m, backend i = BackendOutcome.raise (PyError.rateLimitError m)) →
      ∀ t tok, backend k = BackendOutcome.ok t tok →
      (analyze_market_opportunity backend user_idea now).1 =
        retryTrace (get_universal_market_research_prompt user_idea) 61 k ∧
      (research_execution_strategies backend user_idea market_report now).1 =
        retryTrace (get_web_research_prompt user_idea market_report) 61 k ∧
      countSleeps (retryTrace (get_universal_market_research_prompt user_idea) 61 k) = k ∧
      countCalls (retryTrace (get_universal_market_research_prompt user_idea) 61 k) = k + 1 ∧
      (∀ q, StageEvent.call q ∈ retryTrace (get_universal_market_research_prompt user_idea) 61 k →
        q = get_universal_market_research_prompt user_idea) ∧
      (∀ s, StageEvent.sleep s ∈ retryTrace (get_universal_market_research_prompt user_idea) 61 k →
        s = 61) ∧
      (retryTrace (get_universal_market_research_prompt user_idea) 61 k).getLast? =
        some (StageEvent.call (get_universal_market_research_prompt user_idea)) := by
  intro backend user_idea market_report now k hk hrl t tok hok
  refine ⟨?_, ?_, countSleeps_retryTrace _ 61 k, countCalls_retryTrace _ 61 k,
    call_mem_retryTrace _ 61 k, sleep_mem_retryTrace _ 61 k, getLast_retryTrace _ 61 k⟩
  · rw [analyze_market_opportunity_fst,
      call_with_retry_trace_of_rl_then_ok (get_universal_market_research_prompt user_idea)
        61 hk hrl hok]
  · rw [research_execution_strategies_fst,
      call_with_retry_trace_of_rl_then_ok (get_web_research_prompt user_idea market_report)
        61 hk hrl hok]

theorem C3_witness :
    (1 : Nat) < 3 ∧
    (analyze_market_opportunity
      (fun i => if i = 0 then BackendOutcome.raise (PyError.rateLimitError "429")
                else BackendOutcome.ok "report text" (some 1000)) "solar kiosks" "t0").1 =
      retryTrace (get_universal_market_research_prompt "solar kiosks") 61 1 ∧
    countSleeps (retryTrace (get_universal_market_research_prompt "solar kiosks") 61 1) = 1 :=
  have h := C3_backoff_trace
    (fun i => if i = 0 then BackendOutcome.raise (PyError.rateLimitError "429")
              else BackendOutcome.ok "report text" (some 1000))
    "solar kiosks" "mr" "t0" 1 (by omega)
    (fun i hi => by interval_cases i; exact ⟨"429", rfl⟩)
    "report text" (some 1000) rfl
  ⟨by omega, h.1, h.2.2.1⟩

/-- C5: a stage-level failure is never raised out of the stage operation.
`analyze_strategy` — the one loop with no `return` after it, whose fall-through
would yield a non-dict `None` — always returns a dict (`isSome`), and every
dict `analyze_market_opportunity` or `analyze_strategy` returns is either the
success dict or carries the `"error"` marker key that callers inspect. -/
theorem C5_failures_returned_not_raised :
    (∀ backend user_idea market_report execution_plan now,
      ((analyze_strategy backend user_idea market_report execution_plan now).2).isSome = true) ∧
    (∀ backend user_idea now,
      ((analyze_market_opportunity backend user_idea now).2).isSuccess = true ∨
      "error" ∈ ((analyze_market_opportunity backend user_idea now).2).keys) ∧
    (∀ backend user_idea market_report execution_plan now d,
      (analyze_strategy backend user_idea market_report execution_plan now).2 = some d →
      d.isSuccess = true ∨ "error" ∈ d.keys) := by
  refine ⟨?_, ?_, ?_⟩
  · intro backend user_idea market_report execution_plan now
    rw [analyze_strategy_snd]
    rcases call_with_retry_result_cases backend
        (get_strategic_analysis_prompt user_idea market_report execution_plan) 61 3 0
        (by omega) with ⟨t, tok, h⟩ | ⟨e, h⟩ | ⟨e, h⟩ <;>
      rw [h] <;> rfl
  · intro backend user_idea now
    exact mrdict_success_or_error _
  · intro backend user_idea market_report execution_plan now d _
    exact sadict_success_or_error d

theorem C5_witness :
    ((analyze_strategy (fun _ => BackendOutcome.raise (PyError.otherError "boom"))
      "an idea" "mr" "ep" "t0").2).isSome = true ∧
    (analyze_strategy (fun _ => BackendOutcome.raise (PyError.otherError "boom"))
      "an idea" "mr" "ep" "t0").2 =
      some (SADict.unexpectedFailure "Strategic analysis failed: boom" "an idea" "t0") ∧
    ((SADict.unexpectedFailure "Strategic analysis failed: boom" "an idea" "t0").isSuccess = true ∨
      "error" ∈ (SADict.unexpectedFailure "Strategic analysis failed: boom" "an idea" "t0").keys) :=
  ⟨C5_failures_returned_not_raised.1 _ "an idea" "mr" "ep" "t0",
   rfl,
   C5_failures_returned_not_raised.2.2
     (fun _ => BackendOutcome.raise (PyError.otherError "boom")) "an idea" "mr" "ep" "t0"
     (SADict.unexpectedFailure "Strategic analysis failed: boom" "an idea" "t0") rfl⟩

/-- C10: the dict `analyze_market_opportunity` returns contains the key
`"error"` exactly when no backend completion succeeded within the retry budget
of 3 attempts, contains `"market_research_analysis"` exactly when one did, and
never contains both, so membership of `"error"` alone separates success
from failure. -/
theorem C10_error_key_separates :
    ∀ backend user_idea now,
      ("error" ∈ ((analyze_market_opportunity backend user_idea now).2).keys ↔
        ¬ succeeds_within backend 3) ∧
      ("market_research_analysis" ∈ ((analyze_market_opportunity backend user_idea now).2).keys ↔
        succeeds_within backend 3) ∧
      (((analyze_market_opportunity backend user_idea now).2).keys.contains "error" &&
       ((analyze_market_opportunity backend user_idea now).2).keys.contains
         "market_research_analysis") = false := by
  intro backend user_idea now
  have hiff :
      (∃ t tok, (call_with_retry backend (get_universal_market_research_prompt user_idea)
        61 3 0).2 = RawResult.completed t tok) ↔ succeeds_within backend 3 :=
    (call_with_retry_completed_iff backend _ 61 3 0).trans (succeeds_from_zero backend 3)
  rw [analyze_market_opportunity_snd]
  cases hr : (call_with_retry backend (get_universal_market_research_prompt user_idea)
      61 3 0).2 with
  | completed t tok =>
    have hs : succeeds_within backend 3 := hiff.mp ⟨t, tok, hr⟩
    simp [mr_finalize, MRDict.keys, hs]
  | rateLimitExhausted e =>
    have hns : ¬ succeeds_within backend 3 := by
      intro hs
      rcases hiff.mpr hs with ⟨t, tok, hc⟩
      rw [hr] at hc
      cases hc
    simp [mr_finalize, MRDict.keys, hns]
  | fatalException e =>
    have hns : ¬ succeeds_within backend 3 := by
      intro hs
      rcases hiff.mpr hs with ⟨t, tok, hc⟩
      rw [hr] at hc
      cases hc
    simp [mr_finalize, MRDict.keys, hns]
  | loopFellThrough =>
    exact absurd hr (call_with_retry_ne_fellThrough backend _ 61 3 0 (by omega))

theorem C10_witness :
    "market_research_analysis" ∈
      ((analyze_market_opportunity (fun _ => BackendOutcome.ok "report" (some 10))
        "an idea" "t0").2).keys ↔
    succeeds_within (fun _ => BackendOutcome.ok "report" (some 10)) 3 :=
  (C10_error_key_separates (fun _ => BackendOutcome.ok "report" (some 10)) "an idea" "t0").2.1

/-- C2 counterexample: a whitespace-only idea of 21 spaces passes the app's
`user_idea and len(user_idea) > 20` gate, and `analyze_market_opportunity`
sends it (and even the empty string) straight to the backend — one backend
call is made, not zero, and no `InvalidInputError` exists anywhere in the
source.  This refutes the claim that every empty or whitespace-only
`initial_input` fails with `InvalidInputError` before any backend call. -/
theorem C2_counterexample :
    (String.mk (List.replicate 21 ' ')).data.all (fun c => c == ' ') = true ∧
    idea_captured (String.mk (List.replicate 21 ' ')) = true ∧
    countCalls (analyze_market_opportunity (fun _ => BackendOutcome.ok "report" (some 100))
      (String.mk (List.replicate 21 ' ')) "t0").1 = 1 ∧
    countCalls (analyze_market_opportunity (fun _ => BackendOutcome.ok "report" (some 100))
      "" "t0").1 = 1 := by
  refine ⟨by decide, by decide, ?_, ?_⟩
  · rw [analyze_market_opportunity_fst,
      @call_with_retry_ok (fun _ => BackendOutcome.ok "report" (some 100)) 0 "report" (some 100)
        (get_universal_market_research_prompt (String.mk (List.replicate 21 ' '))) 61 2 rfl]
    simp [countCalls, isCallEvent]
  · rw [analyze_market_opportunity_fst,
      @call_with_retry_ok (fun _ => BackendOutcome.ok "report" (some 100)) 0 "report" (some 100)
        (get_universal_market_research_prompt "") 61 2 rfl]
    simp [countCalls, isCallEvent]

/-- C2 amended: no `InvalidInputError` exists and the stage function performs
no input validation — `analyze_market_opportunity` makes at least one backend
call for every input, including the empty and whitespace-only strings, and
always returns a dict (success or error-marked).  Separately, the app gates
its analysis flow on a non-empty idea longer than 20 characters, so the empty
input yields zero backend calls there, but a whitespace-only input of 21
characters passes that gate. -/
theorem C2_no_validation_before_backend_call :
    (∀ backend user_idea now,
      1 ≤ countCalls (analyze_market_opportunity backend user_idea now).1) ∧
    (∀ backend now, app_market_research_calls backend "" now = 0) ∧
    idea_captured "" = false ∧
    idea_captured (String.mk (List.replicate 21 ' ')) = true ∧
    (∀ backend user_idea now,
      ((analyze_market_opportunity backend user_idea now).2).isSuccess = true ∨
      "error" ∈ ((analyze_market_opportunity backend user_idea now).2).keys) := by
  refine ⟨?_, ?_, by decide, by decide, ?_⟩
  · intro backend user_idea now
    rw [analyze_market_opportunity_fst]
    exact one_le_countCalls_call_with_retry backend _ 61 2 0
  · intro backend now
    simp [app_market_research_calls, idea_captured]
  · intro backend user_idea now
    exact mrdict_success_or_error _

/-- C4 counterexample: a network timeout on the first attempt — an error that
is not a rate limit, which the claim classifies as `Transient` and retryable —
is not retried: the stage makes exactly one call, sleeps zero times and
returns the failure dict immediately, even though the backend would have
succeeded on the second attempt. -/
theorem C4_counterexample :
    countCalls (analyze_market_opportunity
      (fun i => if i = 0 then BackendOutcome.raise (PyError.connectionTimeout "Request timed out")
                else BackendOutcome.ok "recovered" none) "an idea" "t0").1 = 1 ∧
    countSleeps (analyze_market_opportunity
      (fun i => if i = 0 then BackendOutcome.raise (PyError.connectionTimeout "Request timed out")
                else BackendOutcome.ok "recovered" none) "an idea" "t0").1 = 0 ∧
    (analyze_market_opportunity
      (fun i => if i = 0 then BackendOutcome.raise (PyError.connectionTimeout "Request timed out")
                else BackendOutcome.ok "recovered" none) "an idea" "t0").2 =
      MRDict.errorOnly "An unexpected error occurred during analysis: Request timed out" := by
  have h := @call_with_retry_fatal
    (fun i => if i = 0 then BackendOutcome.raise (PyError.connectionTimeout "Request timed out")
      else BackendOutcome.ok "recovered" none) 0
    (PyError.connectionTimeout "Request timed out")
    (get_universal_market_research_prompt "an idea") 61 2 rfl rfl
  refine ⟨?_, ?_, ?_⟩
  · rw [analyze_market_opportunity_fst, h]
    simp [countCalls, isCallEvent]
  · rw [analyze_market_opportunity_fst, h]
    simp [countSleeps, isSleepEvent]
  · rw [analyze_market_opportunity_snd, h]
    rfl

/-- C4 amended: only `RateLimitError` is retried.  Any other exception —
network timeouts included — falls to the `except Exception` handler on its
first occurrence: one call, no sleep, immediate error dict.  A rate-limited
first attempt followed by a success is retried after one 61-second sleep with
the identical prompt. -/
theorem C4_only_rate_limits_retried :
    (∀ backend user_idea now e, PyError.isRateLimit e = false →
      backend 0 = BackendOutcome.raise e →
      countCalls (analyze_market_opportunity backend user_idea now).1 = 1 ∧
      countSleeps (analyze_market_opportunity backend user_idea now).1 = 0 ∧
      (analyze_market_opportunity backend user_idea now).2 =
        MRDict.errorOnly ("An unexpected error occurred during analysis: " ++ e.msg)) ∧
    (∀ backend user_idea now m t tok,
      backend 0 = BackendOutcome.raise (PyError.rateLimitError m) →
      backend 1 = BackendOutcome.ok t tok →
      (analyze_market_opportunity backend user_idea now).1 =
        [StageEvent.call (get_universal_market_research_prompt user_idea),
         StageEvent.sleep 61,
         StageEvent.call (get_universal_market_research_prompt user_idea)] ∧
      ((analyze_market_opportunity backend user_idea now).2).isSuccess = true) := by
  constructor
  · intro backend user_idea now e he h0
    have h := call_with_retry_fatal (get_universal_market_research_prompt user_idea) 61 2 h0 he
    refine ⟨?_, ?_, ?_⟩
    · rw [analyze_market_opportunity_fst, h]
      simp [countCalls, isCallEvent]
    · rw [analyze_market_opportunity_fst, h]
      simp [countSleeps, isSleepEvent]
    · rw [analyze_market_opportunity_snd, h]
      rfl
  · intro backend user_idea now m t tok h0 h1
    have h := call_with_retry_trace_of_rl_then_ok
      (get_universal_market_research_prompt user_idea) 61 (show 1 < 3 by omega)
      (fun i hi => by interval_cases i; exact ⟨m, h0⟩) h1
    constructor
    · rw [analyze_market_opportunity_fst, h]
      rfl
    · rw [analyze_market_opportunity_snd, h]
      rfl

theorem C4_witness :
    PyError.isRateLimit (PyError.connectionTimeout "timeout") = false ∧
    countCalls (analyze_market_opportunity
      (fun _ => BackendOutcome.raise (PyError.connectionTimeout "timeout")) "an idea" "t0").1 = 1 ∧
    ((analyze_market_opportunity
      (fun i => if i = 0 then BackendOutcome.raise (PyError.rateLimitError "429")
                else BackendOutcome.ok "report" none) "an idea" "t0").2).isSuccess = true :=
  ⟨rfl,
   (C4_only_rate_limits_retried.1
      (fun _ => BackendOutcome.raise (PyError.connectionTimeout "timeout")) "an idea" "t0"
      (PyError.connectionTimeout "timeout") rfl rfl).1,
   (C4_only_rate_limits_retried.2
      (fun i => if i = 0 then BackendOutcome.raise (PyError.rateLimitError "429")
                else BackendOutcome.ok "report" none) "an idea" "t0"
      "429" "report" none rfl rfl).2⟩

/-- C6 counterexample: when the web-research stage fails (persistent rate
limiting), `generate_execution_plan` continues and still produces a plan, but
the failed stage's contribution to the downstream planning prompt is the
placeholder string `"Not available."` — not the empty string — and a missing
report file contributes `"[[REPORT NOT FOUND: path]]"` in the chatbot, not the
empty string.  This refutes the claim that the contribution is empty. -/
theorem C6_counterexample :
    ((generate_execution_plan (fun _ => BackendOutcome.raise (PyError.rateLimitError "429"))
      (fun _ => BackendOutcome.ok "the plan" none)
      "an idea" "market report" "t0").webResearch).getResearchData "" = "Not available." ∧
    ("Not available." == "") = false ∧
    ((generate_execution_plan (fun _ => BackendOutcome.raise (PyError.rateLimitError "429"))
      (fun _ => BackendOutcome.ok "the plan" none)
      "an idea" "market report" "t0").result).isSuccess = true ∧
    load_report (fun _ => none) "market_research_analysis.md" =
      "[[REPORT NOT FOUND: market_research_analysis.md]]" ∧
    (load_report (fun _ => none) "market_research_analysis.md" == "") = false := by
  refine ⟨by decide, by decide, by decide, by decide, by decide⟩

/-- C6 amended: when the optional web-research stage fails, or a report file
is missing, execution does continue (the planning call still runs and can
succeed), but the failed contribution to the downstream prompt is the fixed
placeholder `"Not available."` (web research) or `"[[REPORT NOT FOUND:
path]]"` (report file), not the empty string; the planning prompt is built
from `web_research.get('research_data', '')`, whose value on every
error-marked web-research dict is `"Not available."`. -/
theorem C6_optional_failure_gives_placeholder :
    (∀ researchBackend planBackend user_idea market_report now t tok,
      planBackend 0 = BackendOutcome.ok t tok →
      (generate_execution_plan researchBackend planBackend user_idea market_report now).result =
        EPDict.success user_idea market_report
          (((research_execution_strategies researchBackend user_idea market_report
            now).2).getResearchData "") t now) ∧
    (∀ researchBackend user_idea market_report now,
      "error" ∈ ((research_execution_strategies researchBackend user_idea market_report
          now).2).keys →
      ((research_execution_strategies researchBackend user_idea market_report
          now).2).getResearchData "" = "Not available.") ∧
    (∀ researchBackend planBackend user_idea market_report now,
      (generate_execution_plan researchBackend planBackend user_idea market_report
          now).planningPrompt =
        get_execution_planning_prompt user_idea market_report
          (((research_execution_strategies researchBackend user_idea market_report
            now).2).getResearchData "")) ∧
    (∀ fileSystem path, fileSystem path = none →
      load_report fileSystem path = "[[REPORT NOT FOUND: " ++ path ++ "]]") := by
  refine ⟨?_, ?_, ?_, ?_⟩
  · intro researchBackend planBackend user_idea market_report now t tok hok
    simp [generate_execution_plan, single_attempt_call, hok]
  · intro researchBackend user_idea market_report now herr
    rw [research_execution_strategies_snd] at herr ⊢
    cases hr : (call_with_retry researchBackend
        (get_web_research_prompt user_idea market_report) 61 3 0).2 with
    | completed t tok =>
      rw [hr] at herr
      simp [wr_finalize, WRDict.keys] at herr
    | rateLimitExhausted e => rfl
    | fatalException e => rfl
    | loopFellThrough => rfl
  · intro researchBackend planBackend user_idea market_report now
    rfl
  · intro fileSystem path h
    simp [load_report, h]

theorem C6_witness :
    load_report (fun _ => none) "x.md" = "[[REPORT NOT FOUND: " ++ "x.md" ++ "]]" ∧
    (generate_execution_plan (fun _ => BackendOutcome.raise (PyError.rateLimitError "429"))
      (fun _ => BackendOutcome.ok "plan" none) "i" "m" "t").result =
      EPDict.success "i" "m"
        (((research_execution_strategies
          (fun _ => BackendOutcome.raise (PyError.rateLimitError "429")) "i" "m"
          "t").2).getResearchData "") "plan" "t" ∧
    ((research_execution_strategies
      (fun _ => BackendOutcome.raise (PyError.rateLimitError "429")) "i" "m"
      "t").2).getResearchData "" = "Not available." :=
  ⟨C6_optional_failure_gives_placeholder.2.2.2 (fun _ => none) "x.md" rfl,
   C6_optional_failure_gives_placeholder.1
     (fun _ => BackendOutcome.raise (PyError.rateLimitError "429"))
     (fun _ => BackendOutcome.ok "plan" none) "i" "m" "t" "plan" none rfl,
   C6_optional_failure_gives_placeholder.2.1
     (fun _ => BackendOutcome.raise (PyError.rateLimitError "429")) "i" "m" "t" (by decide)⟩

/-- C7: the truncation the prompt builders apply to each included prior-stage
output is the deterministic first-N-characters slice `pyTake`: it leaves a
string of length at most N unchanged, it is idempotent, its output length is
`min N (length s)` and its output is the first-N prefix of `s`; and each
builder depends on its included prior outputs only through `pyTake` at its
budget (1500 for the market report and 2000 for the web research in the
planning prompt; 1500 in the web-research prompt; 2500 for both contexts in
the strategic prompt). -/
theorem C7_truncation_is_first_n_prefix :
    (∀ n s, String.length s ≤ n → pyTake n s = s) ∧
    (∀ n s, pyTake n (pyTake n s) = pyTake n s) ∧
    (∀ n s, (pyTake n s).length = min n s.length) ∧
    (∀ n s, pyTake n s ++ String.mk (s.data.drop n) = s) ∧
    (∀ user_idea market_report market_report2 web_research_data web_research_data2,
      pyTake 1500 market_report = pyTake 1500 market_report2 →
      pyTake 2000 web_research_data = pyTake 2000 web_research_data2 →
      get_execution_planning_prompt user_idea market_report web_research_data =
        get_execution_planning_prompt user_idea market_report2 web_research_data2) ∧
    (∀ user_idea market_report market_report2,
      pyTake 1500 market_report = pyTake 1500 market_report2 →
      get_web_research_prompt user_idea market_report =
        get_web_research_prompt user_idea market_report2) ∧
    (∀ user_idea market_report market_report2 execution_plan execution_plan2,
      pyTake 2500 market_report = pyTake 2500 market_report2 →
      pyTake 2500 execution_plan = pyTake 2500 execution_plan2 →
      get_strategic_analysis_prompt user_idea market_report execution_plan =
        get_strategic_analysis_prompt user_idea market_report2 execution_plan2) := by
  refine ⟨pyTake_of_length_le, pyTake_pyTake, length_pyTake, pyTake_append_drop, ?_, ?_, ?_⟩
  · intro user_idea mr mr2 wr wr2 hmr hwr
    simp only [get_execution_planning_prompt, hmr, hwr]
  · intro user_idea mr mr2 hmr
    simp only [get_web_research_prompt, hmr]
  · intro user_idea mr mr2 ep ep2 hmr hep
    simp only [get_strategic_analysis_prompt, hmr, hep]

theorem C7_witness :
    String.length "abcdef" ≤ 10 ∧
    pyTake 10 "abcdef" = "abcdef" ∧
    pyTake 10 (pyTake 10 "abcdef") = pyTake 10 "abcdef" ∧
    get_execution_planning_prompt "i" "m" "w" = get_execution_planning_prompt "i" "m" "w" ∧
    get_web_research_prompt "i" "m" = get_web_research_prompt "i" "m" ∧
    get_strategic_analysis_prompt "i" "m" "e" = get_strategic_analysis_prompt "i" "m" "e" :=
  ⟨by decide,
   C7_truncation_is_first_n_prefix.1 10 "abcdef" (by decide),
   C7_truncation_is_first_n_prefix.2.1 10 "abcdef",
   C7_truncation_is_first_n_prefix.2.2.2.2.1 "i" "m" "m" "w" "w" rfl rfl,
   C7_truncation_is_first_n_prefix.2.2.2.2.2.1 "i" "m" "m" rfl,
   C7_truncation_is_first_n_prefix.2.2.2.2.2.2 "i" "m" "m" "e" "e" rfl rfl⟩

/-- C8 counterexample: with two rate-limited attempts before a success that
reports 1234 total tokens, the market-research success dict records a
timestamp and the token count but nothing about the number of attempts used
(no `attempts_made` anywhere, contrary to the claimed `attempts_made = 3`);
and the web-research success dict records neither a token count — even though
the backend reported one — nor any attempt count. -/
theorem C8_counterexample :
    ((analyze_market_opportunity
      (fun i => if i < 2 then BackendOutcome.raise (PyError.rateLimitError "429")
                else BackendOutcome.ok "the analysis" (some 1234)) "an idea" "t0").2).isSuccess
      = true ∧
    (((analyze_market_opportunity
      (fun i => if i < 2 then BackendOutcome.raise (PyError.rateLimitError "429")
                else BackendOutcome.ok "the analysis" (some 1234)) "an idea" "t0").2).keys ++
     ((analyze_market_opportunity
      (fun i => if i < 2 then BackendOutcome.raise (PyError.rateLimitError "429")
                else BackendOutcome.ok "the analysis" (some 1234))
        "an idea" "t0").2).metadataKeys).contains "attempts_made" = false ∧
    (((analyze_market_opportunity
      (fun i => if i < 2 then BackendOutcome.raise (PyError.rateLimitError "429")
                else BackendOutcome.ok "the analysis" (some 1234)) "an idea" "t0").2).keys ++
     ((analyze_market_opportunity
      (fun i => if i < 2 then BackendOutcome.raise (PyError.rateLimitError "429")
                else BackendOutcome.ok "the analysis" (some 1234))
        "an idea" "t0").2).metadataKeys).contains "attempts" = false ∧
    ((research_execution_strategies
      (fun i => if i < 2 then BackendOutcome.raise (PyError.rateLimitError "429")
                else BackendOutcome.ok "the analysis" (some 1234))
        "an idea" "mr" "t0").2).isSuccess = true ∧
    ((research_execution_strategies
      (fun i => if i < 2 then BackendOutcome.raise (PyError.rateLimitError "429")
                else BackendOutcome.ok "the analysis" (some 1234))
        "an idea" "mr" "t0").2).keys.contains "total_tokens" = false ∧
    ((research_execution_strategies
      (fun i => if i < 2 then BackendOutcome.raise (PyError.rateLimitError "429")
                else BackendOutcome.ok "the analysis" (some 1234))
        "an idea" "mr" "t0").2).keys.contains "attempts_made" = false := by
  refine ⟨by decide, by decide, by decide, by decide, by decide, by decide⟩

/-- C8 amended: every success dict records a completion timestamp; the
market-research and strategic-analysis success dicts additionally carry a
`total_tokens` entry in their metadata; the web-research success dict records
only the text and the timestamp (no token count); and no stage records the
number of attempts used. -/
theorem C8_success_metadata_no_attempt_count :
    (∀ backend user_idea now,
      ((analyze_market_opportunity backend user_idea now).2).isSuccess = true →
      "analysis_timestamp" ∈ ((analyze_market_opportunity backend user_idea now).2).keys ∧
      "total_tokens" ∈ ((analyze_market_opportunity backend user_idea now).2).metadataKeys ∧
      "attempts_made" ∉ ((analyze_market_opportunity backend user_idea now).2).keys ++
        ((analyze_market_opportunity backend user_idea now).2).metadataKeys) ∧
    (∀ backend user_idea market_report now,
      ((research_execution_strategies backend user_idea market_report now).2).isSuccess = true →
      "timestamp" ∈ ((research_execution_strategies backend user_idea market_report now).2).keys ∧
      "total_tokens" ∉
        ((research_execution_strategies backend user_idea market_report now).2).keys ∧
      "attempts_made" ∉
        ((research_execution_strategies backend user_idea market_report now).2).keys) ∧
    (∀ backend user_idea market_report execution_plan now d,
      (analyze_strategy backend user_idea market_report execution_plan now).2 = some d →
      d.isSuccess = true →
      "analysis_timestamp" ∈ d.keys ∧ "total_tokens" ∈ d.metadataKeys ∧
      "attempts_made" ∉ d.keys ++ d.metadataKeys) := by
  refine ⟨?_, ?_, ?_⟩
  · intro backend user_idea now hs
    cases hd : (analyze_market_opportunity backend user_idea now).2 with
    | success a b c e f =>
      refine ⟨by simp [MRDict.keys], by simp [MRDict.metadataKeys], ?_⟩
      simp [MRDict.keys, MRDict.metadataKeys]
    | rateLimitFailure a b =>
      rw [hd] at hs
      simp [MRDict.isSuccess] at hs
    | errorOnly a =>
      rw [hd] at hs
      simp [MRDict.isSuccess] at hs
  · intro backend user_idea market_report now hs
    cases hd : (research_execution_strategies backend user_idea market_report now).2 with
    | success a b =>
      refine ⟨by simp [WRDict.keys], ?_, ?_⟩ <;> simp [WRDict.keys]
    | rateLimitFailure a b c =>
      rw [hd] at hs
      simp [WRDict.isSuccess] at hs
    | errorOnly a b =>
      rw [hd] at hs
      simp [WRDict.isSuccess] at hs
  · intro backend user_idea market_report execution_plan now d _ hs
    cases d with
    | success a b c e f g =>
      refine ⟨by simp [SADict.keys], by simp [SADict.metadataKeys], ?_⟩
      simp [SADict.keys, SADict.metadataKeys]
    | rateLimitFailure a b c => simp [SADict.isSuccess] at hs
    | unexpectedFailure a b c => simp [SADict.isSuccess] at hs

theorem C8_witness :
    ((analyze_market_opportunity (fun _ => BackendOutcome.ok "x" (some 5)) "i" "t").2).isSuccess
      = true ∧
    "analysis_timestamp" ∈
      ((analyze_market_opportunity (fun _ => BackendOutcome.ok "x" (some 5)) "i" "t").2).keys ∧
    "timestamp" ∈
      ((research_execution_strategies (fun _ => BackendOutcome.ok "x" (some 5)) "i" "m"
        "t").2).keys ∧
    "analysis_timestamp" ∈ (SADict.success "i" "m" "e" "x" "t" (some 5)).keys :=
  ⟨rfl,
   (C8_success_metadata_no_attempt_count.1
     (fun _ => BackendOutcome.ok "x" (some 5)) "i" "t" rfl).1,
   (C8_success_metadata_no_attempt_count.2.1
     (fun _ => BackendOutcome.ok "x" (some 5)) "i" "m" "t" rfl).1,
   (C8_success_metadata_no_attempt_count.2.2
     (fun _ => BackendOutcome.ok "x" (some 5)) "i" "m" "e" "t"
     (SADict.success "i" "m" "e" "x" "t" (some 5)) rfl rfl).1⟩

/-- C9 counterexample: the same backend behaviour — rate limited on the first
attempt, successful afterwards — is retried by `analyze_market_opportunity`
(two calls, success) but NOT by `quick_swot_analysis`, the chat turn, or the
execution-planning call of `generate_execution_plan`: each of those makes
exactly one call and returns a failure, because their bare
`try/except Exception` blocks have no retry loop.  This refutes the claim
that every backend call in the suite is retried up to `max_attempts = 3` on
retryable failure. -/
theorem C9_counterexample :
    countCalls (analyze_market_opportunity
      (fun i => if i = 0 then BackendOutcome.raise (PyError.rateLimitError "429")
                else BackendOutcome.ok "recovered" none) "an idea" "t0").1 = 2 ∧
    ((analyze_market_opportunity
      (fun i => if i = 0 then BackendOutcome.raise (PyError.rateLimitError "429")
                else BackendOutcome.ok "recovered" none) "an idea" "t0").2).isSuccess = true ∧
    countCalls (quick_swot_analysis
      (fun i => if i = 0 then BackendOutcome.raise (PyError.rateLimitError "429")
                else BackendOutcome.ok "recovered" none) "an idea").1 = 1 ∧
    (quick_swot_analysis
      (fun i => if i = 0 then BackendOutcome.raise (PyError.rateLimitError "429")
                else BackendOutcome.ok "recovered" none) "an idea").2 =
      "SWOT analysis failed: 429" ∧
    countCalls (chat_answer
      (fun i => if i = 0 then BackendOutcome.raise (PyError.rateLimitError "429")
                else BackendOutcome.ok "recovered" none) "m" "e" "s" "q").1 = 1 ∧
    (chat_answer
      (fun i => if i = 0 then BackendOutcome.raise (PyError.rateLimitError "429")
                else BackendOutcome.ok "recovered" none) "m" "e" "s" "q").2 =
      ChatTurn.errorPrinted "Error: 429" ∧
    countCalls ((generate_execution_plan
      (fun i => if i = 0 then BackendOutcome.raise (PyError.rateLimitError "429")
                else BackendOutcome.ok "recovered" none)
      (fun i => if i = 0 then BackendOutcome.raise (PyError.rateLimitError "429")
                else BackendOutcome.ok "recovered" none)
      "an idea" "mr" "t0").planTrace) = 1 ∧
    (generate_execution_plan
      (fun i => if i = 0 then BackendOutcome.raise (PyError.rateLimitError "429")
                else BackendOutcome.ok "recovered" none)
      (fun i => if i = 0 then BackendOutcome.raise (PyError.rateLimitError "429")
                else BackendOutcome.ok "recovered" none)
      "an idea" "mr" "t0").result =
      EPDict.errorOnly "Execution planning failed: 429" := by
  refine ⟨by decide, by decide, by decide, by decide, by decide, by decide, by decide, by decide⟩

/-- C9 amended: the market-research, web-research and strategic-analysis
stages each wrap their backend call in the bounded retry loop with
`max_retries = 3` (never more than 3 calls, and exactly 3 under persistent
rate limiting), but the execution-planning call, the quick SWOT call and the
chat call make exactly one backend attempt with no retry, so the policy is
not constant across the suite. -/
theorem C9_retry_policy_not_uniform :
    (∀ backend user_idea now,
      countCalls (analyze_market_opportunity backend user_idea now).1 ≤ 3) ∧
    (∀ backend user_idea market_report now,
      countCalls (research_execution_strategies backend user_idea market_report now).1 ≤ 3) ∧
    (∀ backend user_idea market_report execution_plan now,
      countCalls (analyze_strategy backend user_idea market_report execution_plan now).1 ≤ 3) ∧
    (∀ backend user_idea now,
      (∀ j, j < 3 → ∃ m, backend j = BackendOutcome.raise (PyError.rateLimitError m)) →
      countCalls (analyze_market_opportunity backend user_idea now).1 = 3) ∧
    (∀ backend user_idea, countCalls (quick_swot_analysis backend user_idea).1 = 1) ∧
    (∀ backend mr ep sa question,
      countCalls (chat_answer backend mr ep sa question).1 = 1) ∧
    (∀ researchBackend planBackend user_idea market_report now,
      countCalls (generate_execution_plan researchBackend planBackend user_idea market_report
        now).planTrace = 1) := by
  refine ⟨?_, ?_, ?_, ?_, ?_, ?_, ?_⟩
  · intro backend user_idea now
    rw [analyze_market_opportunity_fst]
    exact countCalls_call_with_retry_le backend _ 61 3 0
  · intro backend user_idea market_report now
    rw [research_execution_strategies_fst]
    exact countCalls_call_with_retry_le backend _ 61 3 0
  · intro backend user_idea market_report execution_plan now
    rw [analyze_strategy_fst]
    exact countCalls_call_with_retry_le backend _ 61 3 0
  · intro backend user_idea now hrl
    obtain ⟨m0, h0⟩ := hrl 0 (by omega)
    obtain ⟨m1, h1⟩ := hrl 1 (by omega)
    obtain ⟨m2, h2⟩ := hrl 2 (by omega)
    have e2 := call_with_retry_exhaust (get_universal_market_research_prompt user_idea) 61 h2 rfl
    have e1 : call_with_retry backend (get_universal_market_research_prompt user_idea) 61 2 1 =
        (StageEvent.call (get_universal_market_research_prompt user_idea) ::
          StageEvent.sleep 61 ::
          [StageEvent.call (get_universal_market_research_prompt user_idea)],
         RawResult.rateLimitExhausted (PyError.rateLimitError m2)) := by
      rw [call_with_retry_retry (get_universal_market_research_prompt user_idea) 61 h1 rfl
        (by omega), e2]
    have e0 : call_with_retry backend (get_universal_market_research_prompt user_idea) 61 3 0 =
        (StageEvent.call (get_universal_market_research_prompt user_idea) ::
          StageEvent.sleep 61 ::
          StageEvent.call (get_universal_market_research_prompt user_idea) ::
          StageEvent.sleep 61 ::
          [StageEvent.call (get_universal_market_research_prompt user_idea)],
         RawResult.rateLimitExhausted (PyError.rateLimitError m2)) := by
      rw [call_with_retry_retry (get_universal_market_research_prompt user_idea) 61 h0 rfl
        (by omega), e1]
    rw [analyze_market_opportunity_fst, e0]
    simp [countCalls, isCallEvent]
  · intro backend user_idea
    exact countCalls_single_attempt_call backend (swot_prompt user_idea)
  · intro backend mr ep sa question
    exact countCalls_single_attempt_call backend (build_prompt mr ep sa question)
  · intro researchBackend planBackend user_idea market_report now
    exact countCalls_single_attempt_call planBackend _

theorem C9_witness :
    countCalls (analyze_market_opportunity
      (fun _ => BackendOutcome.raise (PyError.rateLimitError "429")) "an idea" "t0").1 = 3 ∧
    countCalls (quick_swot_analysis
      (fun _ => BackendOutcome.raise (PyError.rateLimitError "429")) "an idea").1 = 1 :=
  ⟨C9_retry_policy_not_uniform.2.2.2.1
      (fun _ => BackendOutcome.raise (PyError.rateLimitError "429")) "an idea" "t0"
      (fun _ _ => ⟨"429", rfl⟩),
   C9_retry_policy_not_uniform.2.2.2.2.1
      (fun _ => BackendOutcome.raise (PyError.rateLimitError "429")) "an idea"⟩
